import Mathlib

/-!
Verification of the structured event/logging dispatch core of the repository
(`core/dbt/events/base_types.py` and `core/dbt/events/eventmgr.py`) against its
natural-language specification.

The Python code is shallowly embedded: dataclasses become structures, methods
become functions, mutation becomes explicit state passing, a raised exception
becomes an `Except` error value.  Ambient process state (clock, pid, thread
name, invocation id, global metadata) is passed explicitly as context records.
-/

namespace DbtEvents

/-- The five event levels of `EventLevel` (a str-enum used as keys of
`_log_level_map` in `eventmgr.py`): debug, test, info, warn, error. -/
inductive EventLevel
  | debug
  | test
  | info
  | warn
  | error
deriving DecidableEq, Repr

/-- The string value of each `EventLevel` member (it is a str-enum, so each
member compares equal to its string value). -/
def EventLevel.toStr : EventLevel → String
  | .debug => "debug"
  | .test => "test"
  | .info => "info"
  | .warn => "warn"
  | .error => "error"

/-- Recover the `EventLevel` member from its string value; `none` for a string
that is not one of the five members (a lookup with such a string in
`_log_level_map` is a Python `KeyError`). -/
def EventLevel.ofString? : String → Option EventLevel
  | "debug" => some .debug
  | "test" => some .test
  | "info" => some .info
  | "warn" => some .warn
  | "error" => some .error
  | _ => none

/-- The `_log_level_map` of `eventmgr.py`: map from dbt event levels to python log
levels (DEBUG 10, TEST 10, INFO 20, WARN 30, ERROR 40). -/
def log_level_map : EventLevel → Nat
  | .debug => 10
  | .test => 10
  | .info => 20
  | .warn => 30
  | .error => 40

/-- A JSON value as produced by `betterproto`'s `to_dict` and consumed by
`json.dumps`: primitives only (the payload schemas are opaque records of
primitive fields). -/
inductive JValue
  | jnull
  | jbool (b : Bool)
  | jnum (n : Int)
  | jstr (s : String)
deriving DecidableEq, Repr

/-- The distinct failure modes of this subsystem, one constructor per raise
site.  `invalidLevel` is the failing `assert` in `BaseEvent.__post_init__`
(the spec calls this failure InvalidLevelError); `serializationError` is the
`raise Exception(f"type ... is not serializable")` in
`_JsonLogger.event_to_dict` (the spec calls it SerializationError);
`configurationError` is the missing-explicit-level caller error for
dynamic-level kinds (the spec calls it ConfigurationError); `keyError` is a
Python `KeyError` on a `_log_level_map` lookup with an unrecognized level. -/
inductive EventError
  | invalidLevel
  | serializationError
  | configurationError
  | keyError
deriving DecidableEq, Repr

/-- The `info` envelope of a `BaseEvent` (the proto `EventInfo` message whose
fields `__post_init__` populates).  Unset string fields are `""` (falsy in
Python) and the unset pid is `0`. -/
structure EventInfo where
  level : String
  msg : String
  invocation_id : String
  extra : List (String × String)
  ts : String
  pid : Nat
  thread : String
  code : String
  name : String
deriving DecidableEq, Repr

/-- The empty (pre-enrichment) envelope. -/
def EventInfo.empty : EventInfo :=
  { level := "", msg := "", invocation_id := "", extra := [], ts := "",
    pid := 0, thread := "", code := "", name := "" }

/-- The event base classes of `base_types.py` that fix the static level:
`DynamicLevel`, `TestLevel`, `DebugLevel`, `InfoLevel`, `WarnLevel`,
`ErrorLevel`.  `DynamicLevel` adds nothing on top of `BaseEvent` (it inherits
`BaseEvent.level_tag`). -/
inductive EventVariant
  | dynamicLevel
  | testLevel
  | debugLevel
  | infoLevel
  | warnLevel
  | errorLevel
deriving DecidableEq, Repr

/-- The `level_tag` as resolved by inheritance: each leveled base class overrides
it; `DynamicLevel` does not, so it inherits `BaseEvent.level_tag`, which
returns `"debug"`. -/
def level_tag : EventVariant → String
  | .dynamicLevel => "debug"
  | .testLevel => "test"
  | .debugLevel => "debug"
  | .infoLevel => "info"
  | .warnLevel => "warn"
  | .errorLevel => "error"

/-- A concrete event instance.  `name` is `type(e).__name__`; `message` is the
value of the kind's `message()` rendering (a pure function of the payload,
called by the loggers); `code` is the kind's stable `code()`; `toDict` is the
result of betterproto's `to_dict(casing=SNAKE, include_default_values=True)`
on the payload — `none` models the `AttributeError` path where the event type
is not serializable. -/
structure Event where
  name : String
  variant : EventVariant
  message : String
  code : String
  toDict : Option (List (String × JValue))
  info : EventInfo
deriving DecidableEq, Repr

/-- The ambient process state read by `__post_init__` through the module-level
helpers of `base_types.py`: `get_invocation_id`, `get_global_metadata_vars`,
`datetime.utcnow`, `get_pid`, `get_thread_name`. -/
structure EnrichCtx where
  invocation_id : String
  metadata_vars : List (String × String)
  now : String
  pid : Nat
  thread_name : String

/-- The `BaseEvent.__post_init__` of `base_types.py`: if `info.level` is falsy it
is set from `level_tag()`; then `assert self.info.level in ["info", "warn",
"error", "debug", "test"]` (its failure is the `invalidLevel` error); if
`info.msg` is falsy it is set from `message()`; finally invocation id, extra
metadata, timestamp, pid, thread name, code and kind name are assigned
unconditionally. -/
def post_init (ctx : EnrichCtx) (e : Event) : Except EventError Event :=
  let level := if e.info.level = "" then level_tag e.variant else e.info.level
  if level = "info" ∨ level = "warn" ∨ level = "error" ∨ level = "debug" ∨ level = "test" then
    let msg := if e.info.msg = "" then e.message else e.info.msg
    .ok { e with info :=
      { level := level
        msg := msg
        invocation_id := ctx.invocation_id
        extra := ctx.metadata_vars
        ts := ctx.now
        pid := ctx.pid
        thread := ctx.thread_name
        code := e.code
        name := e.name } }
  else
    .error .invalidLevel

/-- Modelled from the spec: the event-construction entry point (`construct
(kind, payload_fields, explicit_level?)`, realised by the `info` helper in
`core/dbt/events/functions.py`, which is not part of `src/`).  Per the spec,
for dynamic-level kinds the level MUST be supplied explicitly and omitting it
is a caller error failing with ConfigurationError; when a level is supplied it
is stored in the envelope before `__post_init__` runs. -/
def construct (ctx : EnrichCtx) (e : Event) (explicit_level : Option String) :
    Except EventError Event :=
  match e.variant, explicit_level with
  | .dynamicLevel, none => .error .configurationError
  | _, none => post_init ctx e
  | _, some lvl => post_init ctx { e with info := { e.info with level := lvl } }

/-- Escaping of a string by `json.dumps`: backslash, double quote, and the
common control characters become two-character escapes. -/
def jsonEscape (s : String) : String :=
  s.data.foldl
    (fun acc c =>
      acc ++ (if c = '\\' then "\\\\"
        else if c = '"' then "\\\""
        else if c = '\n' then "\\n"
        else if c = '\t' then "\\t"
        else if c = '\r' then "\\r"
        else String.singleton c))
    ""

/-- Rendering of a primitive JSON value by `json.dumps`. -/
def JValue.render : JValue → String
  | .jnull => "null"
  | .jbool true => "true"
  | .jbool false => "false"
  | .jnum n => toString n
  | .jstr s => "\"" ++ jsonEscape s ++ "\""

/-- Insertion of a key-value pair into a list already sorted by key
(stable: an equal key goes in front of the existing run). -/
def insortKey (p : String × JValue) : List (String × JValue) → List (String × JValue)
  | [] => [p]
  | q :: rest => if p.1 ≤ q.1 then p :: q :: rest else q :: insortKey p rest

/-- The item ordering performed by `json.dumps(..., sort_keys=True)`: the
dict's items sorted by key (insertion sort; the dict itself is the association
list of its items in insertion order). -/
def sortByKey : List (String × JValue) → List (String × JValue)
  | [] => []
  | p :: rest => insortKey p (sortByKey rest)

/-- The `json.dumps(event_dict, sort_keys=True)`: one compact JSON object with the
items sorted by key, default separators `", "` and `": "`. -/
def json_dumps_sorted (d : List (String × JValue)) : String :=
  "\x7b" ++ String.intercalate ", "
      ((sortByKey d).map (fun p => "\"" ++ jsonEscape p.1 ++ "\": " ++ p.2.render))
    ++ "\x7d"

/-- The `LineFormat` of `eventmgr.py`. -/
inductive LineFormat
  | plainText
  | debugText
  | json
deriving DecidableEq, Repr

/-- A `logging.Logger` destination as observed by this subsystem.  `level` is
the logger's effective level; `handed` records every `.log(level, msg)` call
made on the handle; `emitted` records the messages the logger passes on to its
handlers, which per the stdlib contract are exactly the handed messages whose
level is at least the logger's effective level. -/
structure PyLogger where
  level : Nat
  handed : List (Nat × String)
  emitted : List String
deriving DecidableEq, Repr

/-- The `logging.Logger.log(level, msg)`: the call is always recorded; the message
reaches the handlers iff `level` is at least the logger's effective level. -/
def PyLogger.log (pl : PyLogger) (lvl : Nat) (msg : String) : PyLogger :=
  { pl with
    handed := pl.handed ++ [(lvl, msg)]
    emitted := if pl.level ≤ lvl then pl.emitted ++ [msg] else pl.emitted }

/-- The destination owned by a `_Logger`: exactly one of an output stream
(`self._stream`, holding the written lines) or a python logger
(`self._python_logger`). -/
inductive Dest
  | stream (lines : List String)
  | pyLogger (pl : PyLogger)
deriving DecidableEq, Repr

/-- The lines that have been handed to the destination (stream writes, or
`.log` calls on the python logger). -/
def Dest.record : Dest → List String
  | .stream lines => lines
  | .pyLogger pl => pl.handed.map Prod.snd

/-- The lines that have reached the destination's output: the stream contents,
or the messages the python logger emitted to its handlers (for a file sink,
the file's lines). -/
def Dest.outLines : Dest → List String
  | .stream lines => lines
  | .pyLogger pl => pl.emitted

/-- The `LoggerConfig` of `eventmgr.py`.  `output_stream : Bool` records whether a
stream destination was supplied (the stream's contents live in the created
logger); `logger` is an optional externally supplied python logger handle. -/
structure LoggerConfig where
  name : String
  filter : Event → Bool
  scrubber : String → String
  line_format : LineFormat
  level : EventLevel
  use_colors : Bool
  output_stream : Bool
  output_file_name : Option String
  logger : Option PyLogger

/-- The `NoFilter`: default filter which logs every event. -/
def NoFilter : Event → Bool := fun _ => true

/-- The `NoScrubber`: pass-through scrubber, the default. -/
def NoScrubber : String → String := fun s => s

/-- The state of a constructed `_Logger` (`_TextLogger` when `isJson = false`,
`_JsonLogger` when `isJson = true`).  `invocation_id` stands for the
`event_manager` back-reference used by the debug banner (the only field of the
manager the logger reads). -/
structure LoggerState where
  name : String
  filter : Event → Bool
  scrubber : String → String
  level : EventLevel
  isJson : Bool
  use_colors : Bool
  use_debug_format : Bool
  invocation_id : String
  dest : Dest

/-- The ambient state read by the loggers at write time: `datetime.utcnow()`
formatted as `%H:%M:%S` and `%H:%M:%S.%f` and as the full `str(datetime)`
(used in the banner), and `threading.current_thread().name`. -/
structure RunCtx where
  nowHMS : String
  nowHMSf : String
  nowFull : String
  thread_name : String

/-- The `Style.RESET_ALL` from colorama. -/
def STYLE_RESET_ALL : String := "\x1b[0m"

/-- The `_TextLogger._get_color_tag`. -/
def color_tag (L : LoggerState) : String :=
  if L.use_colors then STYLE_RESET_ALL else ""

/-- The `str.ljust(width, " ")`. -/
def ljust (s : String) (width : Nat) : String :=
  s ++ String.mk (List.replicate (width - s.length) ' ')

/-- The `_TextLogger._get_thread_name`: empty if the current thread has no name,
otherwise the first 10 characters, space-padded to 10, wrapped as
`" [<name>]:"`. -/
def thread_tag (ctx : RunCtx) : String :=
  if ctx.thread_name = "" then ""
  else " [" ++ ljust (String.mk (ctx.thread_name.data.take 10)) 10 ++ "]:"

/-- The `_TextLogger.create_info_line`:
`f"{self._get_color_tag()}{ts}  {scrubbed_msg}"` with `ts` the current time as
`%H:%M:%S` and `scrubbed_msg = self.scrubber(e.message())`. -/
def create_info_line (L : LoggerState) (ctx : RunCtx) (e : Event) : String :=
  color_tag L ++ ctx.nowHMS ++ "  " ++ L.scrubber e.message

/-- The `_TextLogger.create_debug_line`: when `type(e).__name__` is
`"MainReportVersion"` a separator block built from `30 * "="`, the current
time and the manager's invocation id is prepended; then the normal line with
microsecond timestamp, the level left-justified to 5 characters, the thread
tag, and the scrubbed message. -/
def create_debug_line (L : LoggerState) (ctx : RunCtx) (e : Event) : String :=
  let separator := String.mk (List.replicate 30 '=')
  let log_line :=
    if e.name = "MainReportVersion" then
      "\n\n" ++ separator ++ " " ++ ctx.nowFull ++ " | " ++ L.invocation_id ++ " "
        ++ separator ++ "\n"
    else ""
  log_line ++ color_tag L ++ ctx.nowHMSf ++ " [" ++ ljust e.info.level 5 ++ "]"
    ++ thread_tag ctx ++ " " ++ L.scrubber e.message

/-- The `_JsonLogger.event_to_dict`: betterproto's `to_dict` with snake casing and
default values included; an `AttributeError` (the event type has no `to_dict`)
is re-raised as the not-serializable error. -/
def event_to_dict (e : Event) : Except EventError (List (String × JValue)) :=
  match e.toDict with
  | some d => .ok d
  | none => .error .serializationError

/-- The `create_line` as dispatched by the logger's concrete class:
`_JsonLogger.create_line` serializes the event dict with sorted keys and
scrubs the serialized string; `_TextLogger.create_line` picks the debug or
info line. -/
def create_line (L : LoggerState) (ctx : RunCtx) (e : Event) :
    Except EventError String :=
  if L.isJson then
    match event_to_dict e with
    | .error err => .error err
    | .ok d => .ok (L.scrubber (json_dumps_sorted d))
  else
    .ok (if L.use_debug_format then create_debug_line L ctx e
         else create_info_line L ctx e)

/-- The `_Logger.write_line`: create the line, look the event's level up in
`_log_level_map` (a `KeyError` for an unrecognized level string); if a python
logger is present, `.log` the line at that level; otherwise, if a stream is
present and `_log_level_map[self.level] <= python_level`, write the line plus
a newline to the stream. -/
def write_line (L : LoggerState) (ctx : RunCtx) (e : Event) :
    Except EventError LoggerState :=
  match create_line L ctx e with
  | .error err => .error err
  | .ok line =>
    match EventLevel.ofString? e.info.level with
    | none => .error .keyError
    | some lvl =>
      let python_level := log_level_map lvl
      match L.dest with
      | .pyLogger pl => .ok { L with dest := .pyLogger (pl.log python_level line) }
      | .stream lines =>
        if log_level_map L.level ≤ python_level then
          .ok { L with dest := .stream (lines ++ [line ++ "\n"]) }
        else
          .ok L

/-- The `_create_logger` of `eventmgr.py`: a `_JsonLogger` for the Json format,
else a `_TextLogger` with the config's colors and debug-format flag; name,
filter, scrubber and level are copied from the config; the destination is the
externally supplied logger if present, else the supplied stream, else a fresh
python logger whose level is set to `_log_level_map[config.level]` with a
rotating file handler (its emitted messages are the file's lines). -/
def _create_logger (config : LoggerConfig) : LoggerState :=
  let dest : Dest :=
    match config.logger with
    | some h => .pyLogger h
    | none =>
      if config.output_stream then .stream []
      else .pyLogger { level := log_level_map config.level, handed := [], emitted := [] }
  if config.line_format = LineFormat.json then
    { name := config.name, filter := config.filter, scrubber := config.scrubber
      level := config.level, isJson := true, use_colors := false
      use_debug_format := false, invocation_id := "", dest := dest }
  else
    { name := config.name, filter := config.filter, scrubber := config.scrubber
      level := config.level, isJson := false, use_colors := config.use_colors
      use_debug_format := decide (config.line_format = LineFormat.debugText)
      invocation_id := "", dest := dest }

/-- The `EventManager` of `eventmgr.py`: the registered loggers, the registered
callbacks (identified by name; their invocation is observed through the trace
`fire_event` returns), and the process-wide invocation id. -/
structure EventManager where
  loggers : List LoggerState
  callbacks : List String
  invocation_id : String

/-- The logger loop of `EventManager.fire_event`: each registered logger in
order, `write_line` when its filter accepts; a raised exception propagates
immediately, leaving the remaining loggers untouched. -/
def fireLoggers (ctx : RunCtx) (e : Event) :
    List LoggerState → List LoggerState × Option EventError
  | [] => ([], none)
  | L :: rest =>
    if L.filter e then
      match write_line L ctx e with
      | .error err => (L :: rest, some err)
      | .ok L' =>
        let (rest', err?) := fireLoggers ctx e rest
        (L' :: rest', err?)
    else
      let (rest', err?) := fireLoggers ctx e rest
      (L :: rest', err?)

/-- The `EventManager.fire_event`: write to every accepting logger in registration
order, then invoke every callback with the event.  The returned list is the
callbacks invoked, in order; an exception raised by a logger propagates before
the callback loop is reached, so no callback runs in that case. -/
def fire_event (m : EventManager) (ctx : RunCtx) (e : Event) :
    EventManager × List String × Option EventError :=
  match fireLoggers ctx e m.loggers with
  | (ls, some err) => ({ m with loggers := ls }, [], some err)
  | (ls, none) => ({ m with loggers := ls }, m.callbacks, none)

/-- The `EventManager.add_logger`: create the logger from the config, point it at
this manager (the logger reads only the invocation id through that reference)
and append it. -/
def add_logger (m : EventManager) (config : LoggerConfig) : EventManager :=
  { m with loggers := m.loggers ++ [{ _create_logger config with invocation_id := m.invocation_id }] }


/-! ## Derived characterizations -/

/-- The level `__post_init__` ends up checking: the explicit envelope level if
one was populated, else the kind's static `level_tag()`. -/
def resolved_level (e : Event) : String :=
  if e.info.level = "" then level_tag e.variant else e.info.level

/-- Unfolding of `post_init` in terms of `resolved_level`. -/
theorem post_init_eq (ctx : EnrichCtx) (e : Event) :
    post_init ctx e =
      if resolved_level e = "info" ∨ resolved_level e = "warn" ∨ resolved_level e = "error"
          ∨ resolved_level e = "debug" ∨ resolved_level e = "test" then
        .ok { e with info :=
          { level := resolved_level e
            msg := if e.info.msg = "" then e.message else e.info.msg
            invocation_id := ctx.invocation_id
            extra := ctx.metadata_vars
            ts := ctx.now
            pid := ctx.pid
            thread := ctx.thread_name
            code := e.code
            name := e.name } }
      else .error .invalidLevel := rfl

/-! ## Concrete instances used by witnesses and counterexamples -/

/-- A fixed enrichment context. -/
def ctxE : EnrichCtx :=
  { invocation_id := "5b9b8cee", metadata_vars := [("env", "ci")],
    now := "2023-01-02T12:34:56.000000Z", pid := 77, thread_name := "MainThread" }

/-- A fixed run-time context for the loggers. -/
def ctxR : RunCtx :=
  { nowHMS := "12:34:56", nowHMSf := "12:34:56.000000",
    nowFull := "2023-01-02 12:34:56.000000", thread_name := "MainThread" }

/-- A serializable warn-level event with a pre-populated envelope level and
message. -/
def evWarn : Event :=
  { name := "CheckCleanPath", variant := .warnLevel, message := "hello",
    code := "Z012", toDict := some [("msg", .jstr "hello"), ("code", .jstr "Z012")],
    info := { EventInfo.empty with level := "warn", msg := "hello" } }

/-- The enrichment of `evWarn` under `ctxE`. -/
def evWarnOut : Event :=
  { name := "CheckCleanPath", variant := .warnLevel, message := "hello",
    code := "Z012", toDict := some [("msg", .jstr "hello"), ("code", .jstr "Z012")],
    info :=
      { level := "warn", msg := "hello", invocation_id := "5b9b8cee",
        extra := [("env", "ci")], ts := "2023-01-02T12:34:56.000000Z", pid := 77,
        thread := "MainThread", code := "Z012", name := "CheckCleanPath" } }

/-- The `evWarn` with an unrecognized explicit level. -/
def evBadLevel : Event := { evWarn with info := { evWarn.info with level := "fatal" } }

/-- A dynamic-level event before construction (empty envelope). -/
def evDyn : Event :=
  { name := "AdapterEventDebug", variant := .dynamicLevel, message := "dyn",
    code := "E001", toDict := some [("msg", .jstr "dyn")], info := EventInfo.empty }

/-! ## Theorems for the claims -/

/-- C10: `__post_init__` enrichment sets invocation id, extra metadata,
timestamp, pid, thread name, code and kind name unconditionally, but never
overwrites an already-populated envelope level or an already-populated
message. -/
theorem post_init_frame (ctx : EnrichCtx) (e e' : Event)
    (h : post_init ctx e = .ok e') :
    (e.info.level ≠ "" → e'.info.level = e.info.level) ∧
    (e.info.msg ≠ "" → e'.info.msg = e.info.msg) ∧
    e'.info.invocation_id = ctx.invocation_id ∧
    e'.info.extra = ctx.metadata_vars ∧
    e'.info.ts = ctx.now ∧
    e'.info.pid = ctx.pid ∧
    e'.info.thread = ctx.thread_name ∧
    e'.info.code = e.code ∧
    e'.info.name = e.name := by
  rw [post_init_eq] at h
  split at h
  · cases h
    refine ⟨fun hne => ?_, fun hne => ?_, rfl, rfl, rfl, rfl, rfl, rfl, rfl⟩
    · show resolved_level e = e.info.level
      unfold resolved_level
      rw [if_neg hne]
    · show (if e.info.msg = "" then e.message else e.info.msg) = e.info.msg
      rw [if_neg hne]
  · exact absurd h (by simp)

/-- Witness for C10: enrichment of the concrete pre-populated `evWarn`. -/
theorem post_init_frame_witness :
    post_init ctxE evWarn = .ok evWarnOut ∧
    evWarnOut.info.level = evWarn.info.level ∧
    evWarnOut.info.msg = evWarn.info.msg ∧
    evWarnOut.info.pid = ctxE.pid :=
  ⟨rfl,
   (post_init_frame ctxE evWarn evWarnOut rfl).1 (by decide),
   (post_init_frame ctxE evWarn evWarnOut rfl).2.1 (by decide),
   (post_init_frame ctxE evWarn evWarnOut rfl).2.2.2.2.2.1⟩

/-- C6: if the level the construction resolves to (the explicit one, or the
kind's static level tag when none was populated) is not one of the five
recognized levels, `__post_init__` fails with the invalid-level error (the
spec's InvalidLevelError, the failing `assert` in the code). -/
theorem post_init_invalid_level (ctx : EnrichCtx) (e : Event)
    (h : EventLevel.ofString? (resolved_level e) = none) :
    post_init ctx e = .error .invalidLevel := by
  rw [post_init_eq]
  have hne : ¬ (resolved_level e = "info" ∨ resolved_level e = "warn"
      ∨ resolved_level e = "error" ∨ resolved_level e = "debug"
      ∨ resolved_level e = "test") := by
    rintro (h1 | h1 | h1 | h1 | h1) <;> rw [h1] at h <;> exact absurd h (by decide)
  rw [if_neg hne]

/-- Witness for C6: the explicit level `"fatal"` is rejected. -/
theorem post_init_invalid_level_witness :
    EventLevel.ofString? (resolved_level evBadLevel) = none ∧
    post_init ctxE evBadLevel = .error .invalidLevel :=
  ⟨by decide, post_init_invalid_level ctxE evBadLevel (by decide)⟩

/-- C3: constructing an event of a dynamic-level kind without an explicit
level fails with ConfigurationError (the construction entry point is modelled
from the spec, the enforcing helper living in `functions.py` outside `src/`);
constructing the same kind with explicit level `"warn"` yields a record whose
level is `"warn"`. -/
theorem construct_dynamic_level (ctx : EnrichCtx) (e : Event)
    (hv : e.variant = .dynamicLevel) :
    construct ctx e none = .error .configurationError ∧
    ∃ e', construct ctx e (some "warn") = .ok e' ∧ e'.info.level = "warn" := by
  obtain ⟨n, v, msg, c, td, i⟩ := e
  have hv' : v = .dynamicLevel := hv
  subst hv'
  exact ⟨rfl, ⟨_, rfl, rfl⟩⟩

/-- Witness for C3 at a concrete dynamic-level event. -/
theorem construct_dynamic_level_witness :
    construct ctxE evDyn none = .error .configurationError ∧
    ∃ e', construct ctxE evDyn (some "warn") = .ok e' ∧ e'.info.level = "warn" :=
  construct_dynamic_level ctxE evDyn rfl

/-- C7: a record whose payload the JSON formatter cannot encode makes the JSON
sink's write fail with SerializationError; the error is raised for that sink,
not swallowed, so the event is never silently dropped by that sink. -/
theorem json_sink_serialization_error (L : LoggerState) (ctx : RunCtx) (e : Event)
    (hj : L.isJson = true) (hd : e.toDict = none) :
    write_line L ctx e = .error .serializationError := by
  simp [write_line, create_line, event_to_dict, hj, hd]

/-- A JSON sink writing to a fresh stream. -/
def jsonSink : LoggerState :=
  { name := "json", filter := NoFilter, scrubber := NoScrubber, level := .debug,
    isJson := true, use_colors := false, use_debug_format := false,
    invocation_id := "5b9b8cee", dest := .stream [] }

/-- The `evWarn` with an unserializable payload. -/
def evBadPayload : Event := { evWarn with toDict := none }

/-- Witness for C7. -/
theorem json_sink_serialization_error_witness :
    write_line jsonSink ctxR evBadPayload = .error .serializationError :=
  json_sink_serialization_error jsonSink ctxR evBadPayload rfl rfl

/-- C9: for a sink whose destination is an externally supplied logger handle,
the sink's own configured minimum level is never consulted: every record is
handed to the handle at the mapped numeric severity (the conclusion holds for
every configured `config.level`, including configurations whose minimum lies
above the record's level). -/
theorem external_logger_bypasses_min_level (config : LoggerConfig) (h : PyLogger)
    (inv : String) (ctx : RunCtx) (e : Event) (lvl : EventLevel) (line : String)
    (hl : config.logger = some h)
    (hlvl : EventLevel.ofString? e.info.level = some lvl)
    (hline : create_line { _create_logger config with invocation_id := inv } ctx e = .ok line) :
    ∃ L', write_line { _create_logger config with invocation_id := inv } ctx e = .ok L' ∧
      L'.dest = .pyLogger (h.log (log_level_map lvl) line) := by
  have hdest : ({ _create_logger config with invocation_id := inv } : LoggerState).dest
      = .pyLogger h := by
    by_cases hc : config.line_format = LineFormat.json <;>
      simp [_create_logger, hl, hc]
  have hw : write_line { _create_logger config with invocation_id := inv } ctx e =
      .ok { { _create_logger config with invocation_id := inv } with
            dest := .pyLogger (h.log (log_level_map lvl) line) } := by
    unfold write_line
    rw [hline, hlvl, hdest]
  exact ⟨_, hw, rfl⟩

/-- An externally supplied logger handle. -/
def extHandle : PyLogger := { level := 10, handed := [], emitted := [] }

/-- A sink configuration with minimum level error whose destination is the
external handle `extHandle`. -/
def extConfig : LoggerConfig :=
  { name := "ext", filter := NoFilter, scrubber := NoScrubber,
    line_format := .plainText, level := .error, use_colors := false,
    output_stream := false, output_file_name := none, logger := some extHandle }

/-- A debug-level event with a serializable payload and populated envelope. -/
def evDebug : Event :=
  { name := "SomeDebugEvent", variant := .debugLevel, message := "dbg",
    code := "D001", toDict := some [("msg", .jstr "dbg")],
    info := { EventInfo.empty with level := "debug", msg := "dbg" } }

/-- Witness for C9: a debug record is handed to the external handle although
the sink's configured minimum is error (10 < 40). -/
theorem external_logger_bypasses_min_level_witness :
    log_level_map .debug < log_level_map extConfig.level ∧
    ∃ L', write_line { _create_logger extConfig with invocation_id := "5b9b8cee" } ctxR evDebug
        = .ok L' ∧
      L'.dest = .pyLogger (extHandle.log (log_level_map .debug) "12:34:56  dbg") :=
  ⟨by decide,
   external_logger_bypasses_min_level extConfig extHandle "5b9b8cee" ctxR evDebug
     .debug "12:34:56  dbg" rfl rfl rfl⟩

/-- The `insortKey` inserts: the result is a permutation of consing. -/
theorem insortKey_perm (p : String × JValue) (l : List (String × JValue)) :
    (insortKey p l).Perm (p :: l) := by
  induction l with
  | nil => exact List.Perm.refl _
  | cons q rest ih =>
    unfold insortKey
    split
    · exact List.Perm.refl _
    · exact (ih.cons q).trans (List.Perm.swap p q rest)

/-- The `sortByKey` permutes its input. -/
theorem sortByKey_perm (l : List (String × JValue)) : (sortByKey l).Perm l := by
  induction l with
  | nil => exact List.Perm.refl _
  | cons p rest ih => exact (insortKey_perm p (sortByKey rest)).trans (ih.cons p)

/-- Inserting into a key-sorted list keeps it key-sorted. -/
theorem insortKey_sorted (p : String × JValue) (l : List (String × JValue))
    (hl : l.Sorted (fun a b => a.1 ≤ b.1)) :
    (insortKey p l).Sorted (fun a b => a.1 ≤ b.1) := by
  induction l with
  | nil => simp [insortKey]
  | cons q rest ih =>
    rw [List.sorted_cons] at hl
    unfold insortKey
    split
    · next hle =>
      rw [List.sorted_cons]
      refine ⟨fun b hb => ?_, List.sorted_cons.mpr hl⟩
      rcases List.mem_cons.mp hb with rfl | hbr
      · exact hle
      · exact le_trans hle (hl.1 b hbr)
    · next hgt =>
      rw [List.sorted_cons]
      refine ⟨fun b hb => ?_, ih hl.2⟩
      rcases List.mem_cons.mp ((insortKey_perm p rest).mem_iff.mp hb) with rfl | hbr
      · exact le_of_not_le hgt
      · exact hl.1 b hbr

/-- The output of `sortByKey` is key-sorted. -/
theorem sortByKey_sorted (l : List (String × JValue)) :
    (sortByKey l).Sorted (fun a b => a.1 ≤ b.1) := by
  induction l with
  | nil => exact List.Pairwise.nil
  | cons p rest ih => exact insortKey_sorted p (sortByKey rest) ih

/-- Pairwise-`≤` on keys together with pairwise-distinct keys gives strictly
increasing keys. -/
theorem pairwise_key_lt {l : List (String × JValue)}
    (hle : l.Pairwise (fun a b => a.1 ≤ b.1))
    (hne : l.Pairwise (fun a b => a.1 ≠ b.1)) :
    l.Pairwise (fun a b => a.1 < b.1) := by
  induction l with
  | nil => exact List.Pairwise.nil
  | cons p rest ih =>
    rcases List.pairwise_cons.mp hle with ⟨hle1, hle2⟩
    rcases List.pairwise_cons.mp hne with ⟨hne1, hne2⟩
    exact List.pairwise_cons.mpr
      ⟨fun b hb => lt_of_le_of_ne (hle1 b hb) (hne1 b hb), ih hle2 hne2⟩

/-- With pairwise-distinct keys, `sortByKey` is strictly key-sorted. -/
theorem sortByKey_sorted_lt (l : List (String × JValue))
    (hnd : (l.map Prod.fst).Nodup) :
    (sortByKey l).Sorted (fun a b => a.1 < b.1) := by
  have hnd' : ((sortByKey l).map Prod.fst).Nodup :=
    (((sortByKey_perm l).map Prod.fst).nodup_iff).mpr hnd
  have hne : (sortByKey l).Pairwise (fun a b => a.1 ≠ b.1) :=
    (List.pairwise_map).mp hnd'
  exact pairwise_key_lt (sortByKey_sorted l) hne

/-- The `sortByKey` is a canonical form: permuted item lists with distinct keys
sort to the same list. -/
theorem sortByKey_eq_of_perm (d₁ d₂ : List (String × JValue))
    (hperm : d₁.Perm d₂) (hnd : (d₁.map Prod.fst).Nodup) :
    sortByKey d₁ = sortByKey d₂ := by
  haveI : IsAntisymm (String × JValue) (fun a b => a.1 < b.1) :=
    ⟨fun a b h₁ h₂ => absurd h₂ (lt_asymm h₁)⟩
  have hnd₂ : (d₂.map Prod.fst).Nodup := ((hperm.map Prod.fst).nodup_iff).mp hnd
  exact List.eq_of_perm_of_sorted
    ((sortByKey_perm d₁).trans (hperm.trans (sortByKey_perm d₂).symm))
    (sortByKey_sorted_lt d₁ hnd) (sortByKey_sorted_lt d₂ hnd₂)

/-- C8: the JSON formatter is deterministic: two records with identical field
sets (the same key-value items, in any insertion order, with distinct keys)
and the same scrubber produce byte-identical serialized lines, independent of
emission time. -/
theorem json_line_deterministic (L : LoggerState) (ctx₁ ctx₂ : RunCtx)
    (e₁ e₂ : Event) (d₁ d₂ : List (String × JValue))
    (hj : L.isJson = true)
    (h₁ : e₁.toDict = some d₁) (h₂ : e₂.toDict = some d₂)
    (hperm : d₁.Perm d₂) (hnd : (d₁.map Prod.fst).Nodup) :
    create_line L ctx₁ e₁ = create_line L ctx₂ e₂ := by
  simp [create_line, event_to_dict, hj, h₁, h₂, json_dumps_sorted,
    sortByKey_eq_of_perm d₁ d₂ hperm hnd]

/-- Witness for C8: the same two-field payload in both insertion orders. -/
theorem json_line_deterministic_witness :
    create_line jsonSink ctxR
        { evWarn with toDict := some [("b", .jnum 1), ("a", .jstr "x")] } =
      create_line jsonSink
        { ctxR with nowHMS := "23:59:59" }
        { evWarn with toDict := some [("a", .jstr "x"), ("b", .jnum 1)] } :=
  json_line_deterministic jsonSink ctxR { ctxR with nowHMS := "23:59:59" }
    { evWarn with toDict := some [("b", .jnum 1), ("a", .jstr "x")] }
    { evWarn with toDict := some [("a", .jstr "x"), ("b", .jnum 1)] }
    [("b", .jnum 1), ("a", .jstr "x")] [("a", .jstr "x"), ("b", .jnum 1)]
    rfl rfl rfl (by decide) (by decide)

/-- The banner block C5 describes, following the spec's words: 40 `=`
characters, the timestamp, the invocation id, 40 `=` characters (for
comparison with the banner the code builds). -/
def claim_banner40 (ctx : RunCtx) (inv : String) : String :=
  "\n\n" ++ String.mk (List.replicate 40 '=') ++ " " ++ ctx.nowFull ++ " | "
    ++ inv ++ " " ++ String.mk (List.replicate 40 '=') ++ "\n"

/-- A DebugText sink writing to a fresh stream. -/
def debugTextSink : LoggerState :=
  { name := "file", filter := NoFilter, scrubber := NoScrubber, level := .debug,
    isJson := false, use_colors := false, use_debug_format := true,
    invocation_id := "5b9b8cee", dest := .stream [] }

/-- The run-start marker event. -/
def evMainReport : Event :=
  { name := "MainReportVersion", variant := .infoLevel, message := "Running dbt",
    code := "A001", toDict := some [("version", .jstr "1.3.0")],
    info := { EventInfo.empty with level := "info", msg := "Running dbt" } }

/-- Counterexample to C5 as stated: the banner prepended for the run-start
marker is built from 30 `=` characters, so the produced line differs from the
line the claim predicts (the same banner with 40 `=` characters). -/
theorem debug_banner_forty_cex :
    evMainReport.name = "MainReportVersion" ∧
    create_debug_line debugTextSink ctxR evMainReport =
      ("\n\n" ++ String.mk (List.replicate 30 '=') ++ " " ++ ctxR.nowFull ++ " | "
        ++ debugTextSink.invocation_id ++ " " ++ String.mk (List.replicate 30 '=') ++ "\n")
        ++ "12:34:56.000000 [info ] [MainThread]: Running dbt" ∧
    create_debug_line debugTextSink ctxR evMainReport ≠
      claim_banner40 ctxR debugTextSink.invocation_id
        ++ "12:34:56.000000 [info ] [MainThread]: Running dbt" := by
  refine ⟨rfl, by decide, by decide⟩

/-- C5 amended: for records whose kind is the run-start marker
`"MainReportVersion"`, the DebugText formatter prepends a banner separator
block of 30 `=` characters, the timestamp, the invocation id and 30 more `=`
characters; for every other kind no banner is prepended — the only formatting
rule that depends on event identity rather than level. -/
theorem debug_banner_marker (L : LoggerState) (ctx : RunCtx) (e : Event) :
    (e.name = "MainReportVersion" →
      create_debug_line L ctx e =
        ("\n\n" ++ String.mk (List.replicate 30 '=') ++ " " ++ ctx.nowFull ++ " | "
          ++ L.invocation_id ++ " " ++ String.mk (List.replicate 30 '=') ++ "\n")
          ++ color_tag L ++ ctx.nowHMSf ++ " [" ++ ljust e.info.level 5 ++ "]"
          ++ thread_tag ctx ++ " " ++ L.scrubber e.message) ∧
    (e.name ≠ "MainReportVersion" →
      create_debug_line L ctx e =
        color_tag L ++ ctx.nowHMSf ++ " [" ++ ljust e.info.level 5 ++ "]"
          ++ thread_tag ctx ++ " " ++ L.scrubber e.message) := by
  have hsplit : create_debug_line L ctx e =
      (if e.name = "MainReportVersion" then
        "\n\n" ++ String.mk (List.replicate 30 '=') ++ " " ++ ctx.nowFull ++ " | "
          ++ L.invocation_id ++ " " ++ String.mk (List.replicate 30 '=') ++ "\n"
       else "")
      ++ color_tag L ++ ctx.nowHMSf ++ " [" ++ ljust e.info.level 5 ++ "]"
      ++ thread_tag ctx ++ " " ++ L.scrubber e.message := rfl
  constructor
  · intro hname
    rw [hsplit, if_pos hname]
  · intro hname
    rw [hsplit, if_neg hname]
    simp

/-- Witness for the amended C5, evaluating both the banner and the
non-banner case on concrete events. -/
theorem debug_banner_marker_witness :
    create_debug_line debugTextSink ctxR evMainReport =
      ("\n\n" ++ String.mk (List.replicate 30 '=') ++ " " ++ ctxR.nowFull ++ " | "
        ++ debugTextSink.invocation_id ++ " " ++ String.mk (List.replicate 30 '=') ++ "\n")
        ++ color_tag debugTextSink ++ ctxR.nowHMSf ++ " [" ++ ljust evMainReport.info.level 5 ++ "]"
        ++ thread_tag ctxR ++ " " ++ debugTextSink.scrubber evMainReport.message ∧
    create_debug_line debugTextSink ctxR evWarn =
      color_tag debugTextSink ++ ctxR.nowHMSf ++ " [" ++ ljust evWarn.info.level 5 ++ "]"
        ++ thread_tag ctxR ++ " " ++ debugTextSink.scrubber evWarn.message :=
  ⟨(debug_banner_marker debugTextSink ctxR evMainReport).1 rfl,
   (debug_banner_marker debugTextSink ctxR evWarn).2 (by decide)⟩

/-- A sink whose scrubber redacts everything. -/
def redactAllSink : LoggerState :=
  { name := "console", filter := NoFilter, scrubber := fun _ => "", level := .info,
    isJson := false, use_colors := false, use_debug_format := false,
    invocation_id := "5b9b8cee", dest := .stream [] }

/-- Counterexample to C4 as stated: with the scrubber that redacts every
string to `""`, the emitted PlainText line still contains the timestamp — it
differs from the scrub of the complete formatted line (which would be empty),
so not every part of the emitted line has passed through the scrubber. -/
theorem text_scrub_whole_line_cex :
    create_info_line redactAllSink ctxR evWarn = "12:34:56  " ∧
    redactAllSink.scrubber
        (color_tag redactAllSink ++ ctxR.nowHMS ++ "  " ++ evWarn.message) = "" ∧
    create_info_line redactAllSink ctxR evWarn ≠
      redactAllSink.scrubber
        (color_tag redactAllSink ++ ctxR.nowHMS ++ "  " ++ evWarn.message) :=
  ⟨rfl, rfl, by decide⟩

/-- C4 amended: the text formatters apply the scrubber exactly to the rendered
message — timestamp, color prefix, level tag and banner are not scrubbed — so
a configured scrubber is equivalent to pre-scrubbing the message under the
pass-through scrubber; the JSON formatter applies the scrubber to the fully
serialized JSON string (never to structured fields before serialization). -/
theorem scrubber_application_points (L : LoggerState) (ctx : RunCtx) (e : Event) :
    create_info_line L ctx e =
      create_info_line { L with scrubber := NoScrubber } ctx
        { e with message := L.scrubber e.message } ∧
    create_debug_line L ctx e =
      create_debug_line { L with scrubber := NoScrubber } ctx
        { e with message := L.scrubber e.message } ∧
    (L.isJson = true →
      create_line L ctx e =
        Except.map L.scrubber (create_line { L with scrubber := NoScrubber } ctx e)) := by
  refine ⟨rfl, rfl, fun hj => ?_⟩
  cases htd : e.toDict <;>
    simp [create_line, event_to_dict, hj, htd, Except.map, NoScrubber]

/-- Witness for the amended C4, applied to the JSON sink on a concrete
record. -/
theorem scrubber_application_points_witness :
    create_line jsonSink ctxR evWarn =
      Except.map jsonSink.scrubber
        (create_line { jsonSink with scrubber := NoScrubber } ctxR evWarn) :=
  (scrubber_application_points jsonSink ctxR evWarn).2.2 rfl

/-- The logger loop on a list whose accepted prefix writes cleanly and whose
next logger raises: the error propagates, and the failing logger and every
logger after it keep their prior state. -/
theorem fireLoggers_error (ctx : RunCtx) (e : Event) (Lf : LoggerState)
    (err : EventError) (post : List LoggerState)
    (hfil : Lf.filter e = true) (hw : write_line Lf ctx e = .error err) :
    ∀ pre : List LoggerState,
      (∀ L ∈ pre, L.filter e = true → ∃ L', write_line L ctx e = .ok L') →
      ∃ pre' : List LoggerState, pre'.length = pre.length ∧
        fireLoggers ctx e (pre ++ Lf :: post) = (pre' ++ Lf :: post, some err) := by
  intro pre
  induction pre with
  | nil =>
    intro _
    refine ⟨[], rfl, ?_⟩
    simp [fireLoggers, hfil, hw]
  | cons L rest ih =>
    intro hpre
    obtain ⟨pre', hlen, hfl⟩ := ih (fun M hM hf => hpre M (List.mem_cons_of_mem _ hM) hf)
    by_cases hf : L.filter e = true
    · obtain ⟨L', hL'⟩ := hpre L (List.mem_cons_self _ _) hf
      refine ⟨L' :: pre', by simp [hlen], ?_⟩
      simp [fireLoggers, hf, hL', hfl]
    · refine ⟨L :: pre', by simp [hlen], ?_⟩
      simp [fireLoggers, hf, hfl]

/-- C2 amended: `fire_event` does not isolate sink failures.  When a sink's
write raises, the exception propagates immediately: sinks earlier in
registration order have already been written, but the failing sink and every
later sink keep their prior state (later sinks never receive the record), and
no registered callback is invoked. -/
theorem fire_event_error_propagates (m : EventManager) (ctx : RunCtx) (e : Event)
    (pre post : List LoggerState) (Lf : LoggerState) (err : EventError)
    (hsplit : m.loggers = pre ++ Lf :: post)
    (hpre : ∀ L ∈ pre, L.filter e = true → ∃ L', write_line L ctx e = .ok L')
    (hfil : Lf.filter e = true) (hw : write_line Lf ctx e = .error err) :
    ∃ pre' : List LoggerState, pre'.length = pre.length ∧
      fire_event m ctx e = ({ m with loggers := pre' ++ Lf :: post }, [], some err) := by
  obtain ⟨pre', hlen, hfl⟩ := fireLoggers_error ctx e Lf err post hfil hw pre hpre
  exact ⟨pre', hlen, by simp [fire_event, hsplit, hfl]⟩

/-- A PlainText sink writing to a fresh stream. -/
def streamTextSink : LoggerState :=
  { name := "stdout", filter := NoFilter, scrubber := NoScrubber, level := .debug,
    isJson := false, use_colors := false, use_debug_format := false,
    invocation_id := "5b9b8cee", dest := .stream [] }

/-- Witness for the amended C2: text sink, then the failing JSON sink, then
another text sink; the error propagates with the trailing sink untouched and
no callback invoked. -/
theorem fire_event_error_propagates_witness :
    ∃ pre' : List LoggerState, pre'.length = 1 ∧
      fire_event
          { loggers := [streamTextSink, jsonSink, streamTextSink],
            callbacks := ["on_event"], invocation_id := "5b9b8cee" }
          ctxR evBadPayload
        = ({ loggers := pre' ++ jsonSink :: [streamTextSink],
             callbacks := ["on_event"], invocation_id := "5b9b8cee" },
           [], some .serializationError) :=
  fire_event_error_propagates
    { loggers := [streamTextSink, jsonSink, streamTextSink],
      callbacks := ["on_event"], invocation_id := "5b9b8cee" }
    ctxR evBadPayload [streamTextSink] [streamTextSink] jsonSink .serializationError
    rfl
    (fun L hL _ => by
      rcases List.mem_singleton.mp hL with rfl
      exact ⟨_, rfl⟩)
    rfl rfl

/-- The two-sink manager of the C2 counterexample: failing JSON sink first,
healthy text sink second, one registered callback. -/
def mFail : EventManager :=
  { loggers := [jsonSink, streamTextSink], callbacks := ["on_event"],
    invocation_id := "5b9b8cee" }

/-- Counterexample to C2 as stated: the JSON sink's serialization failure
aborts `fire_event` — the manager comes back unchanged, so the second sink's
stream is still empty (although its own write would have delivered the line)
and the registered callback was never invoked. -/
theorem fire_event_isolation_cex :
    fire_event mFail ctxR evBadPayload = (mFail, [], some .serializationError) ∧
    write_line streamTextSink ctxR evBadPayload =
      .ok { streamTextSink with dest := .stream ["12:34:56  hello\n"] } ∧
    mFail.callbacks = ["on_event"] :=
  ⟨rfl, rfl, rfl⟩

/-- The property C1 claims, following the spec's words: for a sink whose
filter accepts the record, firing delivers the record to the sink's
destination iff the record's mapped numeric severity is at least the severity
of the sink's configured minimum level. -/
def claim_delivers_iff_min_severity (L : LoggerState) (ctx : RunCtx) (e : Event)
    (lvl : EventLevel) : Prop :=
  ∀ L', write_line L ctx e = .ok L' →
    (Dest.record L'.dest ≠ Dest.record L.dest ↔
      log_level_map L.level ≤ log_level_map lvl)

/-- Counterexample to C1 as stated: the sink built on the externally supplied
logger handle with minimum level error still receives a debug record — the
line is handed to its destination handle although severity 10 < 40. -/
theorem sink_delivers_iff_min_severity_cex :
    ¬ claim_delivers_iff_min_severity
        { _create_logger extConfig with invocation_id := "5b9b8cee" }
        ctxR evDebug .debug := by
  intro hcl
  have h := hcl _ rfl
  exact absurd (h.mp (by decide)) (by decide)

/-- The logger loop on a single accepting sink whose write succeeds. -/
theorem fireLoggers_single (ctx : RunCtx) (e : Event) (L L' : LoggerState)
    (hf : L.filter e = true) (hw : write_line L ctx e = .ok L') :
    fireLoggers ctx e [L] = ([L'], none) := by
  simp [fireLoggers, hf, hw]

/-- C1 amended: for every sink whose destination is an output stream or a
manager-created rotating file (no externally supplied logger handle) and whose
filter accepts the record, firing the record delivers it to the sink's output
iff the numeric severity of the record's level is at least that of the sink's
configured minimum level; sinks with an externally supplied handle are exempt
(the record is always handed to the handle). -/
theorem stream_file_sink_delivers_iff_min_severity
    (config : LoggerConfig) (inv : String) (ctx : RunCtx) (e : Event)
    (lvl : EventLevel) (line : String) (L : LoggerState)
    (hL : L = { _create_logger config with invocation_id := inv })
    (hnolog : config.logger = none)
    (hfil : config.filter e = true)
    (hlvl : EventLevel.ofString? e.info.level = some lvl)
    (hline : create_line L ctx e = .ok line) :
    ∃ L', fireLoggers ctx e [L] = ([L'], none) ∧
      (Dest.outLines L'.dest ≠ Dest.outLines L.dest ↔
        log_level_map config.level ≤ log_level_map lvl) := by
  have hfilL : L.filter e = true := by
    subst hL
    by_cases hc : config.line_format = LineFormat.json <;>
      simp [_create_logger, hc, hfil]
  have hlevL : L.level = config.level := by
    subst hL
    by_cases hc : config.line_format = LineFormat.json <;>
      simp [_create_logger, hc]
  by_cases hos : config.output_stream
  · have hdest : L.dest = .stream [] := by
      subst hL
      by_cases hc : config.line_format = LineFormat.json <;>
        simp [_create_logger, hnolog, hos, hc]
    have hwl : write_line L ctx e =
        (if log_level_map config.level ≤ log_level_map lvl then
          Except.ok { L with dest := .stream [line ++ "\n"] }
         else Except.ok L) := by
      unfold write_line
      rw [hline, hlvl, hdest, hlevL]
      rfl
    by_cases hle : log_level_map config.level ≤ log_level_map lvl
    · rw [if_pos hle] at hwl
      exact ⟨_, fireLoggers_single ctx e L _ hfilL hwl,
        by simp [Dest.outLines, hdest, hle]⟩
    · rw [if_neg hle] at hwl
      exact ⟨_, fireLoggers_single ctx e L _ hfilL hwl, by simp [hle]⟩
  · have hdest : L.dest =
        .pyLogger { level := log_level_map config.level, handed := [], emitted := [] } := by
      subst hL
      by_cases hc : config.line_format = LineFormat.json <;>
        simp [_create_logger, hnolog, hos, hc]
    have hwl : write_line L ctx e =
        .ok { L with
              dest := .pyLogger
                (PyLogger.log
                  { level := log_level_map config.level, handed := [], emitted := [] }
                  (log_level_map lvl) line) } := by
      unfold write_line
      rw [hline, hlvl, hdest]
    refine ⟨_, fireLoggers_single ctx e L _ hfilL hwl, ?_⟩
    by_cases hle : log_level_map config.level ≤ log_level_map lvl
    · simp [Dest.outLines, hdest, PyLogger.log, hle]
    · simp [Dest.outLines, hdest, PyLogger.log, hle]

/-- A PlainText sink configuration with minimum level info writing to a
supplied stream. -/
def streamConfig : LoggerConfig :=
  { name := "stdout", filter := NoFilter, scrubber := NoScrubber,
    line_format := .plainText, level := .info, use_colors := false,
    output_stream := true, output_file_name := none, logger := none }

/-- Witness for the amended C1: a warn record (severity 30) against the
stream sink with minimum info (severity 20) — delivered, with the iff
discharged at a concrete input. -/
theorem stream_file_sink_delivers_iff_min_severity_witness :
    ∃ L', fireLoggers ctxR evWarn
        [{ _create_logger streamConfig with invocation_id := "5b9b8cee" }] = ([L'], none) ∧
      (Dest.outLines L'.dest ≠
          Dest.outLines
            ({ _create_logger streamConfig with invocation_id := "5b9b8cee" } : LoggerState).dest ↔
        log_level_map streamConfig.level ≤ log_level_map .warn) :=
  stream_file_sink_delivers_iff_min_severity streamConfig "5b9b8cee" ctxR evWarn
    .warn "12:34:56  hello" _ rfl rfl rfl rfl rfl

end DbtEvents
